import Mathlib

/-!
# Verification of the AttendanceTracker attendance-marking workflow

Shallow embedding of the client-side attendance reconciliation logic of
`src/components/attendance/attendance-table.tsx`, the year-deletion guard of
`src/components/years/year-management.tsx`, and the percentage helpers of
`src/lib/utils.ts` / the attendance page.

The component state consists of two `Map<number, string>` values:
`existingAttendance` (the CommittedSet, built from the fetched records) and
`attendanceState` (the PendingSet, staged locally).  JavaScript `Map` is an
insertion-ordered association container whose `set` replaces the value of an
existing key in place and appends a fresh key at the end; we embed it as an
ordered association list with exactly those operations.

React semantics used in the embedding: a `useState` setter
(`setAttendanceState`) does not change the value of the local binding
`attendanceState` in the currently running event handler — the new map is only
visible from the next render on.  Consequently a call to `updateStats()` placed
right after `setAttendanceState(...)` still reads the map from before the
mutation.  Each embedded operation therefore computes any published statistics
from the pre-call `attendanceState`, while returning the updated map as the
state for the next event.
-/

namespace AttendanceTracker

/-- Embedding of a JavaScript `Map<number, string>`: an insertion-ordered
association list.  Keys are student ids, values are attendance status
strings. -/
abbrev JSMap := List (Nat × String)

namespace JSMap

/-- Embedding of `Map.prototype.has`: does some entry carry the key? -/
def has : JSMap → Nat → Bool
  | [], _ => false
  | e :: rest, k => e.1 == k || has rest k

/-- Lookup of `Map.prototype.get` (first, i.e. unique, occurrence of the
key). -/
def get? : JSMap → Nat → Option String
  | [], _ => none
  | e :: rest, k => if e.1 == k then some e.2 else get? rest k

/-- Embedding of `Map.prototype.set`: replaces the value of an existing key in place
(keeping its position), appends a fresh key at the end. -/
def set : JSMap → Nat → String → JSMap
  | [], k, v => [(k, v)]
  | e :: rest, k, v => if e.1 == k then (k, v) :: rest else e :: set rest k v

/-- Embedding of `Array.from(map.values())` in insertion order. -/
def values (m : JSMap) : List String :=
  m.map Prod.snd

/-- Embedding of `new Map()`. -/
def empty : JSMap := []

end JSMap

/-- A roster entry, as consumed by `AttendanceTable` (`students` prop).  Only
the fields the embedded logic reads are carried. -/
structure Student where
  id : Nat
  name : String
  rollNumber : String
deriving DecidableEq

/-- The statistics object passed to `onAttendanceChange` by `updateStats`. -/
structure Stats where
  present : Nat
  absent : Nat
  late : Nat
deriving DecidableEq

/-- Embedding of `Array.from(map.values()).filter(s => s === status).length`. -/
def countStatus (m : JSMap) (status : String) : Nat :=
  ((JSMap.values m).filter (fun s => s == status)).length

/-- Embedding of `updateStats` (attendance-table.tsx lines 92-101): each count is the sum of
the matching statuses of `attendanceState` (PendingSet) and of
`existingAttendance` (CommittedSet), counted independently on each map. -/
def updateStats (existingAttendance attendanceState : JSMap) : Stats :=
  { present := countStatus attendanceState "present" + countStatus existingAttendance "present"
    absent := countStatus attendanceState "absent" + countStatus existingAttendance "absent"
    late := countStatus attendanceState "late" + countStatus existingAttendance "late" }

/-- Embedding of `getStudentStatus` (lines 149-157): PendingSet first, then CommittedSet,
else `"not-marked"`. -/
def getStudentStatus (existingAttendance attendanceState : JSMap) (studentId : Nat) : String :=
  if JSMap.has attendanceState studentId then
    (JSMap.get? attendanceState studentId).getD "not-marked"
  else if JSMap.has existingAttendance studentId then
    (JSMap.get? existingAttendance studentId).getD "not-marked"
  else
    "not-marked"

/-- Embedding of `isMarked` (lines 159-161). -/
def isMarked (existingAttendance attendanceState : JSMap) (studentId : Nat) : Bool :=
  JSMap.has existingAttendance studentId || JSMap.has attendanceState studentId

/-- Result of one `markAttendance` call: the `attendanceState` map for the next
render, whether the call was rejected with the duplicate-mark toast, and the
statistics published to `onAttendanceChange` (none when `updateStats` was not
reached). -/
structure MarkResult where
  attendanceState : JSMap
  rejected : Bool
  publishedStats : Option Stats
deriving DecidableEq

/-- Embedding of `markAttendance` (lines 103-115).  The guard tests only
`existingAttendance.has(studentId)` — membership in the CommittedSet; the
PendingSet is not consulted.  On the accepting path
`setAttendanceState(prev => new Map(prev.set(studentId, status)))` stages the
mark, and the following `updateStats()` still reads the pre-call
`attendanceState` binding (the React setter has not updated the local
variable), so the published statistics are computed from the old PendingSet. -/
def markAttendance (existingAttendance attendanceState : JSMap)
    (studentId : Nat) (status : String) : MarkResult :=
  if JSMap.has existingAttendance studentId then
    { attendanceState := attendanceState, rejected := true, publishedStats := none }
  else
    { attendanceState := JSMap.set attendanceState studentId status
      rejected := false
      publishedStats := some (updateStats existingAttendance attendanceState) }

/-- Embedding of `markAllPresent` (lines 117-126): copies `attendanceState` into `newState`
and, for every roster student whose id is not in `existingAttendance`, sets the
entry to `"present"` — regardless of whether the student already has a pending
entry.  (The trailing `updateStats()` again reads the stale pre-call map.) -/
def markAllPresent (students : List Student) (existingAttendance attendanceState : JSMap) :
    JSMap :=
  students.foldl
    (fun newState student =>
      if JSMap.has existingAttendance student.id then newState
      else JSMap.set newState student.id "present")
    attendanceState

/-- One record of the bulk payload built by `saveAttendance` (lines 129-136). -/
structure AttendanceRecordPayload where
  studentId : Nat
  courseId : Nat
  academicYearId : Nat
  date : String
  status : String
  markedBy : String
deriving DecidableEq

/-- Embedding of `pendingRecords` (lines 129-136): one payload record per PendingSet
entry. -/
def pendingRecords (courseId academicYearId : Nat) (currentDate : String)
    (attendanceState : JSMap) : List AttendanceRecordPayload :=
  attendanceState.map (fun e =>
    { studentId := e.1, courseId := courseId, academicYearId := academicYearId
      date := currentDate, status := e.2, markedBy := "faculty" })

/-- Outcome of the transport call inside `bulkAttendanceMutation`:
`success` carries the body `{success, errors}` returned by the backend,
`failure` the message of the thrown error. -/
inductive SaveOutcome where
  | success (successCount errorCount : Nat)
  | failure (message : String)
deriving DecidableEq

/-- The toast surfaced by a save attempt. -/
inductive SaveToast where
  | noChanges
  | saveSuccess (successCount errorCount : Nat)
  | saveError (message : String)
deriving DecidableEq

/-- Observable outcome of one `saveAttendance` call. -/
structure SaveRun where
  attendanceState : JSMap
  networkCalled : Bool
  invalidatedQueries : Bool
  toast : SaveToast
deriving DecidableEq

/-- Embedding of `saveAttendance` (lines 128-147) together with the mutation callbacks of
`bulkAttendanceMutation` (lines 66-90).  Empty PendingSet: "No Changes" toast,
no network call.  Otherwise the batch is submitted; `onSuccess` invalidates the
`/api/attendance` query, clears `attendanceState` to a fresh empty map and
toasts the returned counts; `onError` only toasts the error message, leaving
`attendanceState` untouched. -/
def saveAttendance (courseId academicYearId : Nat) (currentDate : String)
    (attendanceState : JSMap) (outcome : SaveOutcome) : SaveRun :=
  if (pendingRecords courseId academicYearId currentDate attendanceState).length = 0 then
    { attendanceState := attendanceState, networkCalled := false
      invalidatedQueries := false, toast := .noChanges }
  else
    match outcome with
    | .success s e =>
        { attendanceState := JSMap.empty, networkCalled := true
          invalidatedQueries := true, toast := .saveSuccess s e }
    | .failure msg =>
        { attendanceState := attendanceState, networkCalled := true
          invalidatedQueries := false, toast := .saveError msg }

/-- Union of CommittedSet and PendingSet as a single map, PendingSet taking
priority (the merge view of the spec; under the disjointness invariant the priority
is irrelevant). -/
def unionMap (existingAttendance attendanceState : JSMap) : JSMap :=
  attendanceState ++ existingAttendance.filter (fun e => !JSMap.has attendanceState e.1)

/-- Derived aggregate of the spec, stated in the words of the spec: per-status
counts summed across the union of CommittedSet and PendingSet. -/
def specUnionStats (existingAttendance attendanceState : JSMap) : Stats :=
  { present := countStatus (unionMap existingAttendance attendanceState) "present"
    absent := countStatus (unionMap existingAttendance attendanceState) "absent"
    late := countStatus (unionMap existingAttendance attendanceState) "late" }

/-- The two-set state of one attendance workspace. -/
structure WState where
  existingAttendance : JSMap
  attendanceState : JSMap
deriving DecidableEq

/-- One user-driven transition of the workspace.  `mark` and `markAll` keep the
CommittedSet and replace the PendingSet by what the corresponding handler
produces.  `save` replaces the PendingSet by the map `saveAttendance` leaves
behind and — exactly when the run invalidated the attendance query — lets the
refetch rebuild the CommittedSet to an arbitrary `refreshed` map. -/
inductive Step : WState → WState → Prop
  | mark (studentId : Nat) (status : String) (s : WState) :
      Step s ⟨s.existingAttendance,
        (markAttendance s.existingAttendance s.attendanceState studentId status).attendanceState⟩
  | markAll (students : List Student) (s : WState) :
      Step s ⟨s.existingAttendance,
        markAllPresent students s.existingAttendance s.attendanceState⟩
  | save (courseId academicYearId : Nat) (currentDate : String) (outcome : SaveOutcome)
      (refreshed : JSMap) (s : WState) :
      Step s
        ⟨if (saveAttendance courseId academicYearId currentDate s.attendanceState
              outcome).invalidatedQueries then refreshed
          else s.existingAttendance,
         (saveAttendance courseId academicYearId currentDate s.attendanceState
              outcome).attendanceState⟩

/-- The duplicate-protection invariant: no student id is held by both sets. -/
def Inv (s : WState) : Prop :=
  ∀ k : Nat, JSMap.has s.existingAttendance k = true →
    JSMap.has s.attendanceState k = false

/-- Embedding of `calculateAttendancePercentage` (lib/utils.ts lines 52-55):
`total === 0 ? 0 : Math.round(present / total * 100)`.  `Math.round x` is
`⌊x + 1/2⌋`, which is the Mathlib `round` on `ℚ`. -/
def calculateAttendancePercentage (present total : Nat) : Int :=
  if total = 0 then 0 else round ((present : ℚ) / (total : ℚ) * 100)

/-- The stats state set by the attendance page. -/
structure PageStats where
  present : Nat
  absent : Nat
  late : Nat
  percentage : Int
deriving DecidableEq

/-- Embedding of `handleAttendanceStatsChange` (pages/attendance.tsx): the denominator is
`present + absent + late` — the number of marked students, not the roster
size — and the percentage is 0 when it vanishes. -/
def handleAttendanceStatsChange (stats : Stats) : PageStats :=
  let total := stats.present + stats.absent + stats.late
  let percentage : Int :=
    if total > 0 then round ((stats.present : ℚ) / (total : ℚ) * 100) else 0
  { present := stats.present, absent := stats.absent, late := stats.late
    percentage := percentage }

/-- An academic year row as consumed by `YearManagement` (only the fields the
delete handler reads). -/
structure AcademicYearWithStats where
  id : Nat
  name : String
  isActive : Bool
deriving DecidableEq

/-- What a `handleDeleteYear` call does. -/
inductive DeleteYearAction where
  | rejectedActive
  | cancelled
  | mutate (id : Nat)
deriving DecidableEq

/-- Embedding of `handleDeleteYear` (year-management.tsx lines 75-88): an active year is
rejected with an error toast before any confirmation or request; otherwise the
DELETE mutation is invoked only if the user confirms. -/
def handleDeleteYear (year : AcademicYearWithStats) (confirmed : Bool) : DeleteYearAction :=
  if year.isActive then .rejectedActive
  else if confirmed then .mutate year.id
  else .cancelled

/-! ## Map lemmas -/

namespace JSMap

theorem get?_set (m : JSMap) (k : Nat) (v : String) (k' : Nat) :
    (m.set k v).get? k' = if k = k' then some v else m.get? k' := by
  induction m with
  | nil =>
    by_cases h : k = k' <;> simp [set, get?, h]
  | cons e rest ih =>
    by_cases h1 : e.1 = k
    · by_cases h2 : k = k'
      · simp [set, get?, h1, h2]
      · have h3 : e.1 ≠ k' := fun hc => h2 (h1 ▸ hc)
        simp [set, get?, h1, h2, h3]
    · by_cases h3 : e.1 = k'
      · have h2 : k ≠ k' := fun hc => h1 (hc ▸ h3)
        have h2' : k' ≠ k := fun hc => h2 hc.symm
        simp [set, get?, h1, h2, h2', h3]
      · simp [set, get?, h1, h3, ih]

theorem has_iff_get? (m : JSMap) (k : Nat) :
    m.has k = true ↔ ∃ v, m.get? k = some v := by
  induction m with
  | nil => simp [has, get?]
  | cons e rest ih =>
    by_cases h : e.1 = k
    · simp [has, get?, h]
    · simp [has, get?, h, ih]

theorem has_eq_false_iff_get? (m : JSMap) (k : Nat) :
    m.has k = false ↔ m.get? k = none := by
  induction m with
  | nil => simp [has, get?]
  | cons e rest ih =>
    by_cases h : e.1 = k
    · simp [has, get?, h]
    · simp [has, get?, h, ih]

/-- Replacing a key by the value it already holds leaves the map unchanged
(structurally — the entry keeps its position). -/
theorem set_eq_self_of_get? (m : JSMap) (k : Nat) (v : String)
    (h : m.get? k = some v) : m.set k v = m := by
  induction m with
  | nil => simp [get?] at h
  | cons e rest ih =>
    by_cases h1 : e.1 = k
    · have hv : e.2 = v := by
        have hh := h
        simp [get?, h1] at hh
        exact hh
      have he : (k, v) = e := by rw [← h1, ← hv]
      simp [set, h1, he]
    · have h' : get? rest k = some v := by simpa [get?, h1] using h
      simp [set, h1, ih h']

end JSMap

/-! ## Behaviour of `markAllPresent` -/

theorem markAllPresent_cons (s : Student) (rest : List Student)
    (existingAttendance attendanceState : JSMap) :
    markAllPresent (s :: rest) existingAttendance attendanceState =
      markAllPresent rest existingAttendance
        (if JSMap.has existingAttendance s.id then attendanceState
         else JSMap.set attendanceState s.id "present") := by
  simp only [markAllPresent, List.foldl_cons]

/-- Pointwise description of `markAllPresent`: a key is forced to `"present"`
exactly when some roster student carries it and it is not committed; every
other key keeps its `attendanceState` binding. -/
theorem markAllPresent_get? (students : List Student)
    (existingAttendance attendanceState : JSMap) (k : Nat) :
    JSMap.get? (markAllPresent students existingAttendance attendanceState) k =
      if (students.any fun s => s.id == k) && !JSMap.has existingAttendance k then
        some "present"
      else JSMap.get? attendanceState k := by
  induction students generalizing attendanceState with
  | nil => simp [markAllPresent]
  | cons s rest ih =>
    rw [markAllPresent_cons, ih]
    by_cases hexk : JSMap.has existingAttendance k
    · simp only [hexk, Bool.not_true, Bool.and_false, if_false]
      by_cases hs : JSMap.has existingAttendance s.id
      · simp [hs]
      · have hk : s.id ≠ k := fun hc => hs (hc ▸ hexk)
        simp [hs, JSMap.get?_set, hk]
    · have hexk' : JSMap.has existingAttendance k = false := by
        simpa using hexk
      simp only [hexk', Bool.not_false, Bool.and_true]
      by_cases hk : s.id = k
      · have hs : JSMap.has existingAttendance s.id = false := by rw [hk]; exact hexk'
        simp [hs, hk, hexk', JSMap.get?_set]
      · by_cases hs : JSMap.has existingAttendance s.id
        · simp [hs, hk]
        · simp [hs, hk, JSMap.get?_set]

/-- If every non-committed roster key already reads `"present"`, the fold of
`markAllPresent` leaves the map untouched (structurally). -/
theorem markAllPresent_eq_self (students : List Student)
    (existingAttendance attendanceState : JSMap)
    (h : ∀ s ∈ students, JSMap.has existingAttendance s.id = false →
      JSMap.get? attendanceState s.id = some "present") :
    markAllPresent students existingAttendance attendanceState = attendanceState := by
  induction students with
  | nil => simp [markAllPresent]
  | cons s rest ih =>
    rw [markAllPresent_cons]
    by_cases hs : JSMap.has existingAttendance s.id
    · simp only [hs, if_true]
      exact ih fun t ht => h t (List.mem_cons_of_mem _ ht)
    · have hs' : JSMap.has existingAttendance s.id = false := by simpa using hs
      rw [if_neg (by simp [hs']),
        JSMap.set_eq_self_of_get? _ _ _ (h s (List.mem_cons_self _ _) hs')]
      exact ih fun t ht => h t (List.mem_cons_of_mem _ ht)

/-! ## Invariant preservation -/

theorem inv_step {s s' : WState} (hinv : Inv s) (hstep : Step s s') : Inv s' := by
  cases hstep with
  | mark studentId status s =>
    intro k hk
    replace hk : JSMap.has s.existingAttendance k = true := hk
    show JSMap.has
      (markAttendance s.existingAttendance s.attendanceState studentId status).attendanceState
      k = false
    by_cases hex : JSMap.has s.existingAttendance studentId
    · simpa [markAttendance, hex] using hinv k hk
    · have hne : studentId ≠ k := fun hc => hex (hc ▸ hk)
      have h2 : JSMap.get? s.attendanceState k = none :=
        (JSMap.has_eq_false_iff_get? _ _).mp (hinv k hk)
      simp [markAttendance, hex, JSMap.has_eq_false_iff_get?, JSMap.get?_set, hne, h2]
  | markAll students s =>
    intro k hk
    replace hk : JSMap.has s.existingAttendance k = true := hk
    show JSMap.has (markAllPresent students s.existingAttendance s.attendanceState) k = false
    rw [JSMap.has_eq_false_iff_get?, markAllPresent_get?]
    have h2 : JSMap.get? s.attendanceState k = none :=
      (JSMap.has_eq_false_iff_get? _ _).mp (hinv k hk)
    simp [hk, h2]
  | save courseId academicYearId currentDate outcome refreshed s =>
    by_cases hemp :
        (pendingRecords courseId academicYearId currentDate s.attendanceState).length = 0
    · cases outcome <;> simpa [Inv, saveAttendance, hemp] using hinv
    · cases outcome with
      | success sc ec =>
        intro k _
        simp [saveAttendance, hemp, JSMap.empty, JSMap.has]
      | failure msg =>
        simpa [Inv, saveAttendance, hemp] using hinv

/-! ## Claim theorems -/

/-- C1, counterexample: student 1 is marked (PendingSet holds an entry for it),
yet `markAttendance` is not rejected and the PendingSet entry changes from
`"present"` to `"absent"` — the duplicate guard does not consult the
PendingSet. -/
theorem markAttendance_pending_overwrite_cex :
    isMarked [] [(1, "present")] 1 = true ∧
    (markAttendance [] [(1, "present")] 1 "absent").rejected = false ∧
    (markAttendance [] [(1, "present")] 1 "absent").attendanceState = [(1, "absent")] ∧
    ([(1, "absent")] : JSMap) ≠ [(1, "present")] := by decide

/-- C1, amended: `markAttendance` rejects a mark as a duplicate (no-op on the
PendingSet, error toast) exactly when the student is in the CommittedSet; a
student held only by the PendingSet is accepted again and its pending entry is
overwritten with the new status. -/
theorem markAttendance_duplicate_guard_committed_only
    (existingAttendance attendanceState : JSMap) (studentId : Nat) (status : String) :
    (JSMap.has existingAttendance studentId = true →
      markAttendance existingAttendance attendanceState studentId status =
        { attendanceState := attendanceState, rejected := true, publishedStats := none }) ∧
    (JSMap.has existingAttendance studentId = false →
      markAttendance existingAttendance attendanceState studentId status =
        { attendanceState := JSMap.set attendanceState studentId status, rejected := false
          publishedStats := some (updateStats existingAttendance attendanceState) }) := by
  constructor <;> intro h <;> simp [markAttendance, h]

/-- Witness for the C1 theorem at a concrete committed student. -/
theorem markAttendance_duplicate_guard_committed_only_witness :
    markAttendance [(2, "late")] [(1, "present")] 2 "absent" =
      { attendanceState := [(1, "present")], rejected := true, publishedStats := none } :=
  (markAttendance_duplicate_guard_committed_only [(2, "late")] [(1, "present")] 2 "absent").1
    (by decide)

/-- C2, counterexample: student 1 is already marked (pending `"absent"`), yet
`markAllPresent` replaces that pending entry with `"present"` instead of
leaving it unchanged. -/
theorem markAllPresent_pending_entry_changed_cex :
    isMarked [] [(1, "absent")] 1 = true ∧
    markAllPresent [⟨1, "Alice", "R1"⟩] [] [(1, "absent")] = [(1, "present")] ∧
    ([(1, "present")] : JSMap) ≠ [(1, "absent")] := by decide

/-- C2, amended: after `markAllPresent`, a student id reads `"present"` exactly
when some roster student carries it and it is not in the CommittedSet — pending
entries of such students are overwritten — while every other id keeps its
previous PendingSet binding. -/
theorem markAllPresent_pointwise (students : List Student)
    (existingAttendance attendanceState : JSMap) (studentId : Nat) :
    JSMap.get? (markAllPresent students existingAttendance attendanceState) studentId =
      if (students.any fun s => s.id == studentId) && !JSMap.has existingAttendance studentId
      then some "present"
      else JSMap.get? attendanceState studentId :=
  markAllPresent_get? students existingAttendance attendanceState studentId

/-- C3: marking student 1 on a fresh workspace publishes the statistics of the
map from before the call — zero counts — although the union of the CommittedSet
and the resulting PendingSet contains one `"present"` mark.  The `updateStats()`
call placed after `setAttendanceState(...)` reads the stale state binding. -/
theorem updateStats_stale_after_mark :
    (markAttendance [] [] 1 "present").attendanceState = [(1, "present")] ∧
    (markAttendance [] [] 1 "present").publishedStats = some ⟨0, 0, 0⟩ ∧
    specUnionStats [] (markAttendance [] [] 1 "present").attendanceState = ⟨1, 0, 0⟩ ∧
    (⟨0, 0, 0⟩ : Stats) ≠ (⟨1, 0, 0⟩ : Stats) := by decide

/-- C4: when the bulk request fails, `saveAttendance` leaves the PendingSet
exactly as it was — no partial clearing — does not invalidate the attendance
query, and surfaces the error message in the toast, so the user can retry. -/
theorem saveAttendance_failure_preserves_pending (courseId academicYearId : Nat)
    (currentDate : String) (attendanceState : JSMap) (msg : String)
    (h : attendanceState ≠ []) :
    saveAttendance courseId academicYearId currentDate attendanceState (.failure msg) =
      { attendanceState := attendanceState, networkCalled := true
        invalidatedQueries := false, toast := .saveError msg } := by
  have hlen :
      (pendingRecords courseId academicYearId currentDate attendanceState).length ≠ 0 := by
    simp [pendingRecords, List.length_eq_zero, h]
  simp [saveAttendance, hlen]

/-- Witness for the C4 theorem at a concrete two-entry PendingSet. -/
theorem saveAttendance_failure_preserves_pending_witness :
    saveAttendance 1 1 "2025-01-15" [(1, "present"), (2, "late")] (.failure "Network error") =
      { attendanceState := [(1, "present"), (2, "late")], networkCalled := true
        invalidatedQueries := false, toast := .saveError "Network error" } :=
  saveAttendance_failure_preserves_pending 1 1 "2025-01-15" [(1, "present"), (2, "late")]
    "Network error" (by decide)

/-- C5: when the bulk request succeeds as a transport operation — with any
per-record error count, including a positive one — `saveAttendance` clears the
PendingSet to the empty map, invalidates the attendance query (signalling the
CommittedSet refresh) and toasts the success and error counts returned by the
backend. -/
theorem saveAttendance_success_clears_and_reports (courseId academicYearId : Nat)
    (currentDate : String) (attendanceState : JSMap) (successCount errorCount : Nat)
    (h : attendanceState ≠ []) :
    saveAttendance courseId academicYearId currentDate attendanceState
        (.success successCount errorCount) =
      { attendanceState := JSMap.empty, networkCalled := true
        invalidatedQueries := true, toast := .saveSuccess successCount errorCount } := by
  have hlen :
      (pendingRecords courseId academicYearId currentDate attendanceState).length ≠ 0 := by
    simp [pendingRecords, List.length_eq_zero, h]
  simp [saveAttendance, hlen]

/-- Witness for the C5 theorem with a partial batch failure (two failed
records). -/
theorem saveAttendance_success_clears_and_reports_witness :
    saveAttendance 1 1 "2025-01-15" [(1, "present"), (2, "absent"), (3, "late")]
        (.success 1 2) =
      { attendanceState := JSMap.empty, networkCalled := true
        invalidatedQueries := true, toast := .saveSuccess 1 2 } :=
  saveAttendance_success_clears_and_reports 1 1 "2025-01-15"
    [(1, "present"), (2, "absent"), (3, "late")] 1 2 (by decide)

/-- C6, counterexample: student 2 is not in the loaded roster (which only holds
student 1), yet `markAttendance` does not reject the call — it stages the
unknown student into the PendingSet. -/
theorem markAttendance_unknown_student_staged_cex :
    ((([⟨1, "Alice", "R1"⟩] : List Student).all fun s => s.id != 2) = true) ∧
    (markAttendance [] [] 2 "present").rejected = false ∧
    (markAttendance [] [] 2 "present").attendanceState = [(2, "present")] := by decide

/-- C6, amended: `markAttendance` performs no roster-membership check; for any
studentId outside the roster that is not in the CommittedSet, the call is
accepted and the student is staged into the PendingSet.  (The surrounding UI
only invokes the handler for roster rows.) -/
theorem markAttendance_no_roster_check (students : List Student)
    (existingAttendance attendanceState : JSMap) (studentId : Nat) (status : String)
    (_hroster : ∀ s ∈ students, s.id ≠ studentId)
    (hex : JSMap.has existingAttendance studentId = false) :
    (markAttendance existingAttendance attendanceState studentId status).rejected = false ∧
    (markAttendance existingAttendance attendanceState studentId status).attendanceState =
      JSMap.set attendanceState studentId status := by
  simp [markAttendance, hex]

/-- Witness for the C6 theorem: roster `[student 1]`, marking the unknown
student 2. -/
theorem markAttendance_no_roster_check_witness :
    (markAttendance [] [] 2 "present").rejected = false ∧
    (markAttendance [] [] 2 "present").attendanceState = JSMap.set [] 2 "present" :=
  markAttendance_no_roster_check [⟨1, "Alice", "R1"⟩] [] [] 2 "present"
    (by decide) (by decide)

/-- C7: the percentage helpers compute `round(present / (present+absent+late) ×
100)` — with the convention that a zero denominator yields 0, division by zero
being 0 in Mathlib — the worked example 5/2/1 gives 63, and the denominator is
the number of marked students (the three counts), not the roster size: the
result is a function of the counts alone. -/
theorem attendancePercentage_spec :
    (∀ present total : Nat,
      calculateAttendancePercentage present total =
        round ((present : ℚ) / (total : ℚ) * 100)) ∧
    (∀ stats : Stats,
      (handleAttendanceStatsChange stats).percentage =
        round ((stats.present : ℚ) /
          ((stats.present : ℚ) + (stats.absent : ℚ) + (stats.late : ℚ)) * 100)) ∧
    (handleAttendanceStatsChange ⟨0, 0, 0⟩).percentage = 0 ∧
    (handleAttendanceStatsChange ⟨5, 2, 1⟩).percentage = 63 := by
  refine ⟨?_, ?_, ?_, ?_⟩
  · intro present total
    by_cases h : total = 0
    · simp [calculateAttendancePercentage, h]
    · simp [calculateAttendancePercentage, h]
  · intro stats
    by_cases h : stats.present + stats.absent + stats.late = 0
    · have hp : stats.present = 0 := by omega
      have ha : stats.absent = 0 := by omega
      have hl : stats.late = 0 := by omega
      simp [handleAttendanceStatsChange, hp, ha, hl]
    · have h' : 0 < stats.present + stats.absent + stats.late := Nat.pos_of_ne_zero h
      simp only [handleAttendanceStatsChange, h', if_pos]
      push_cast
      ring_nf
  · simp [handleAttendanceStatsChange]
  · simp [handleAttendanceStatsChange]
    norm_num [round_eq]

/-- C8: every workspace state reachable by `mark` / `markAllPresent` / `save`
steps from an initial state with an empty PendingSet satisfies the
duplicate-protection invariant: no student id is held by both the CommittedSet
and the PendingSet. -/
theorem reachable_state_sets_disjoint (c0 : JSMap) (s : WState)
    (h : Relation.ReflTransGen Step ⟨c0, JSMap.empty⟩ s) : Inv s := by
  induction h with
  | refl => intro k _; rfl
  | tail _ hstep ih => exact inv_step ih hstep

/-- Witness for the C8 theorem: the state reached from CommittedSet
`{1 ↦ present}` by one mark of student 2 satisfies the invariant. -/
theorem reachable_state_sets_disjoint_witness :
    Inv ⟨[(1, "present")], [(2, "absent")]⟩ :=
  reachable_state_sets_disjoint [(1, "present")] ⟨[(1, "present")], [(2, "absent")]⟩
    (Relation.ReflTransGen.single
      (Step.mark 2 "absent" ⟨[(1, "present")], JSMap.empty⟩))

/-- C9: `markAllPresent` is idempotent — running it twice from any roster,
CommittedSet and PendingSet produces the same PendingSet (structurally) as
running it once. -/
theorem markAllPresent_idempotent (students : List Student)
    (existingAttendance attendanceState : JSMap) :
    markAllPresent students existingAttendance
        (markAllPresent students existingAttendance attendanceState) =
      markAllPresent students existingAttendance attendanceState := by
  apply markAllPresent_eq_self
  intro s hs hex
  have hany : (students.any fun t => t.id == s.id) = true := by
    rw [List.any_eq_true]
    exact ⟨s, hs, by simp⟩
  rw [markAllPresent_get?, hany]
  simp [hex]

/-- C10: `handleDeleteYear` rejects an active academic year outright — the
delete mutation is not invoked, so no DELETE request is issued and the
collection is untouched — and the mutation is invoked exactly for an inactive
year after a positive confirmation, with the id of that year. -/
theorem handleDeleteYear_active_guard (year : AcademicYearWithStats) (confirmed : Bool) :
    (year.isActive = true → handleDeleteYear year confirmed = .rejectedActive) ∧
    (∀ i : Nat, handleDeleteYear year confirmed = .mutate i ↔
      year.isActive = false ∧ confirmed = true ∧ i = year.id) := by
  constructor
  · intro h
    simp [handleDeleteYear, h]
  · intro i
    by_cases h : year.isActive
    · simp [handleDeleteYear, h]
    · have h' : year.isActive = false := by simpa using h
      by_cases hc : confirmed
      · simp [handleDeleteYear, h', hc, eq_comm]
      · have hc' : confirmed = false := by simpa using hc
        simp [handleDeleteYear, h', hc']

/-- Witness for the C10 theorem at a concrete active year. -/
theorem handleDeleteYear_active_guard_witness :
    handleDeleteYear ⟨3, "2024-25", true⟩ true = .rejectedActive :=
  (handleDeleteYear_active_guard ⟨3, "2024-25", true⟩ true).1 rfl

end AttendanceTracker
